import Mathlib

/-!
Verification development for the options-data batch pipeline
(`03_multiple_files_spliting_option.py`).

The pipeline reads one columnar file at a time into a per-file scratch
database, decomposes option symbols with a fixed regular expression,
enriches a unified table by keyed updates, classifies rows into
moneyness buckets, deletes the two extreme buckets, and exports the
remainder ordered by (date, time, symbol).  The batch orchestrator
(`main`) iterates input files, isolating per-file failures.

Strings (SQL VARCHAR values) are modelled as `List Char`, written via
`String.data` on literals, so that every definition evaluates by
kernel reduction.  Dates and times of the raw rows are opaque ordinal
encodings (`Nat`); a reconstructed expiry date is an explicit
(year, month, day) triple.  SQL NULL is `Option.none`; a query that
can raise a conversion error is an `Except` value.
-/

/-- Character is in the regex class [A-Z] (the symbol grammar is
case-sensitive uppercase). -/
def isUpperCh (c : Char) : Bool := 'A' ≤ c && c ≤ 'Z'

/-- Character is in the regex class [0-9]. -/
def isDigitCh (c : Char) : Bool := '0' ≤ c && c ≤ '9'

/-- `LIKE 'NIFTY%'` prefix test, modelled directly on character lists. -/
def likeNifty (pat s : List Char) : Bool :=
  match pat, s with
  | [], _ => true
  | _ :: _, [] => false
  | a :: ps, b :: ss => a = b && likeNifty ps ss

/-- Numeric value of a digit string (used by the INTEGER casts of the
split query; the cast sites only ever receive regex `\d+` groups or
the empty string). -/
def digitsVal (acc : Nat) : List Char → Nat
  | [] => acc
  | c :: cs => digitsVal (acc * 10 + (c.toNat - 48)) cs

/-- DuckDB `CAST(x AS INTEGER)` on a VARCHAR: succeeds on a non-empty
digit string, raises a conversion error otherwise.  In the split query
the argument is always a `\d+` capture group of a successful match or
the empty string `''` that `regexp_extract` yields on a failed match,
so this models exactly the reachable cast behaviour. -/
def castInteger (cs : List Char) : Except (List Char) Int :=
  if cs ≠ [] ∧ cs.all isDigitCh then Except.ok (digitsVal 0 cs)
  else Except.error ("Could not convert string to INT32".data)

/-- The six capture groups of the fixed symbol grammar
regexp `([A-Z]+)(\d{2})([A-Z]{3})(\d{2})(\d+)(PE|CE)`. -/
structure RawMatch where
  g1 : List Char
  g2 : List Char
  g3 : List Char
  g4 : List Char
  g5 : List Char
  g6 : List Char
deriving DecidableEq

/-- Match exactly `n` characters of class `p`, returning the matched
group and the remainder (regex `p{n}`). -/
def takeExact (p : Char → Bool) : Nat → List Char → Option (List Char × List Char)
  | 0, cs => some ([], cs)
  | _ + 1, [] => none
  | n + 1, c :: cs =>
      if p c then (takeExact p n cs).map (fun gr => (c :: gr.1, gr.2)) else none

/-- Match the alternation `(PE|CE)` at the start of the input,
returning the matched group. -/
def matchTypeGrp (cs : List Char) : Option (List Char) :=
  match cs with
  | c1 :: c2 :: _ =>
      if [c1, c2] = "PE".data then some ("PE".data)
      else if [c1, c2] = "CE".data then some ("CE".data)
      else none
  | _ => none

/-- Greedy-with-backtracking match of `(\d+)(PE|CE)`: `run` is the
maximal digit run at the current position, `rest` the input after it;
candidate strike lengths are tried longest first, exactly as a regex
engine backtracks a greedy `\d+`.  Returns (strike group, type group). -/
def tryStrike : Nat → List Char → List Char → Option (List Char × List Char)
  | 0, _, _ => none
  | n + 1, run, rest =>
      match matchTypeGrp (run.drop (n + 1) ++ rest) with
      | some t => some (run.take (n + 1), t)
      | none => tryStrike n run rest

/-- Match `(\d{2})([A-Z]{3})(\d{2})(\d+)(PE|CE)` at the start of the
input (everything after the instrument group). -/
def matchAfterInstr (cs : List Char) :
    Option (List Char × List Char × List Char × List Char × List Char) :=
  match takeExact isDigitCh 2 cs with
  | none => none
  | some (g2, r2) =>
    match takeExact isUpperCh 3 r2 with
    | none => none
    | some (g3, r3) =>
      match takeExact isDigitCh 2 r3 with
      | none => none
      | some (g4, r4) =>
        let run := r4.takeWhile isDigitCh
        match tryStrike run.length run (r4.drop run.length) with
        | none => none
        | some (g5, g6) => some (g2, g3, g4, g5, g6)

/-- Greedy-with-backtracking match of the leading `([A-Z]+)`: `run` is
the maximal uppercase run at the current position; instrument lengths
are tried longest first. -/
def tryInstr : Nat → List Char → List Char → Option RawMatch
  | 0, _, _ => none
  | n + 1, run, rest =>
      match matchAfterInstr (run.drop (n + 1) ++ rest) with
      | some (g2, g3, g4, g5, g6) => some ⟨run.take (n + 1), g2, g3, g4, g5, g6⟩
      | none => tryInstr n run rest

/-- Attempt the whole pattern anchored at the current position. -/
def matchAt (cs : List Char) : Option RawMatch :=
  let run := cs.takeWhile isUpperCh
  tryInstr run.length run (cs.drop run.length)

/-- Unanchored leftmost search of the pattern, like RE2/DuckDB:
earliest start position wins, greedy groups backtrack. -/
def searchSymbol : List Char → Option RawMatch
  | [] => none
  | c :: rest =>
      match matchAt (c :: rest) with
      | some m => some m
      | none => searchSymbol rest

/-- DuckDB `regexp_extract(symbol, '([A-Z]+)(\d{2})([A-Z]{3})(\d{2})(\d+)(PE|CE)', group)`:
returns the requested capture group of the leftmost match, and the
EMPTY STRING — not NULL — when the pattern does not match. -/
def regexp_extract (s : List Char) (group : Nat) : List Char :=
  match searchSymbol s with
  | none => []
  | some m =>
      match group with
      | 1 => m.g1
      | 2 => m.g2
      | 3 => m.g3
      | 4 => m.g4
      | 5 => m.g5
      | 6 => m.g6
      | _ => []

/-- A reconstructed calendar date (`make_date` result). -/
structure SDate where
  year : Int
  month : Int
  day : Int
deriving DecidableEq

/-- The `CASE month WHEN 'JAN' THEN 1 … WHEN 'DEC' THEN 12 END`
lookup; no ELSE branch, so an unknown token yields NULL. -/
def monthLookup (m : List Char) : Option Int :=
  if m = "JAN".data then some 1
  else if m = "FEB".data then some 2
  else if m = "MAR".data then some 3
  else if m = "APR".data then some 4
  else if m = "MAY".data then some 5
  else if m = "JUN".data then some 6
  else if m = "JUL".data then some 7
  else if m = "AUG".data then some 8
  else if m = "SEP".data then some 9
  else if m = "OCT".data then some 10
  else if m = "NOV".data then some 11
  else if m = "DEC".data then some 12
  else none

/-- Gregorian leap-year rule, for `make_date` range checking. -/
def isLeap (y : Int) : Bool := (y % 4 = 0 && y % 100 ≠ 0) || y % 400 = 0

/-- Days in a month, for `make_date` range checking. -/
def daysInMonth (y m : Int) : Int :=
  if m = 2 then (if isLeap y then 29 else 28)
  else if m = 4 ∨ m = 6 ∨ m = 9 ∨ m = 11 then 30
  else 31

/-- DuckDB `make_date(y, m, d)`: NULL month (from the ELSE-less month
CASE) propagates to a NULL date; an out-of-range component raises. -/
def make_date (y : Int) (m : Option Int) (d : Int) : Except (List Char) (Option SDate) :=
  match m with
  | none => Except.ok none
  | some mv =>
      if 1 ≤ mv ∧ mv ≤ 12 ∧ 1 ≤ d ∧ d ≤ daysInMonth y mv then
        Except.ok (some ⟨y, mv, d⟩)
      else Except.error ("make_date: date field value out of range".data)

/-- A row of the `options` relation after extraction: symbol plus the
parsed date/time (opaque ordinal encodings) and the rounded integer
price fields. -/
structure OptionRow where
  symbol : List Char
  date : Nat
  time : Nat
  «open» : Int
  high : Int
  low : Int
  close : Int
  volume : Int
  oi : Int
deriving DecidableEq

/-- One projected row of the `parsed_symbols` CTE: the six
`regexp_extract` groups plus the strike cast, before DISTINCT. -/
structure ParsedSym where
  symbol : List Char
  instrument : List Char
  day : List Char
  month : List Char
  year : List Char
  strike_price : Int
  option_type : List Char
  date : Nat
deriving DecidableEq

/-- A row of the `splits` relation. -/
structure SplitRow where
  symbol : List Char
  instrument : List Char
  expiry_date : Option SDate
  strike_price : Int
  option_type : List Char
  date : Nat
deriving DecidableEq

/-- Evaluate a fallible projection over every row, stopping at the
first error — the semantics of a single SQL statement that raises. -/
def mapExcept (f : α → Except ε β) : List α → Except ε (List β)
  | [] => Except.ok []
  | a :: as =>
      match f a with
      | Except.error e => Except.error e
      | Except.ok b =>
          match mapExcept f as with
          | Except.error e => Except.error e
          | Except.ok bs => Except.ok (b :: bs)

/-- The projection of the `parsed_symbols` CTE for one candidate row:
six regex group extractions and the `CAST(… AS INTEGER)` of the strike
group.  On a symbol the pattern does not match, every group is the
empty string and the strike cast raises. -/
def parseCandidate (o : OptionRow) : Except (List Char) ParsedSym :=
  match castInteger (regexp_extract o.symbol 5) with
  | Except.error e => Except.error e
  | Except.ok strike =>
      Except.ok
        { symbol := o.symbol
          instrument := regexp_extract o.symbol 1
          day := regexp_extract o.symbol 2
          month := regexp_extract o.symbol 3
          year := regexp_extract o.symbol 4
          strike_price := strike
          option_type := regexp_extract o.symbol 6
          date := o.date }

/-- The outer SELECT of the split query for one distinct parsed row:
casts day and year, maps the month token through the CASE lookup, and
reconstructs `expiry_date` via `make_date(2000 + year, month, day)`.
The query's `IS NOT NULL` guards are vacuous in DuckDB because
`regexp_extract` never returns NULL (it returns `''`), so they are not
modelled as a filter. -/
def finishRow (p : ParsedSym) : Except (List Char) SplitRow :=
  match castInteger p.year with
  | Except.error e => Except.error e
  | Except.ok yearNum =>
    match castInteger p.day with
    | Except.error e => Except.error e
    | Except.ok dayNum =>
      match make_date (2000 + yearNum) (monthLookup p.month) dayNum with
      | Except.error e => Except.error e
      | Except.ok expiry =>
          Except.ok
            { symbol := p.symbol
              instrument := p.instrument
              expiry_date := expiry
              strike_price := p.strike_price
              option_type := p.option_type
              date := p.date }

/-- The `INSERT INTO splits` statement of `create_split_data`:
candidates are the option rows whose symbol is `LIKE 'NIFTY%'`; the
CTE computes the regex projection (strike cast included) per row, then
`SELECT DISTINCT` deduplicates the projected tuples — note the tuple
includes the trade `date` column — and the outer SELECT reconstructs
the expiry date.  Any cast or `make_date` fault aborts the whole
statement with an error. -/
def create_split_data (options : List OptionRow) : Except (List Char) (List SplitRow) :=
  let candidates := options.filter (fun o => likeNifty ("NIFTY".data) o.symbol)
  match mapExcept parseCandidate candidates with
  | Except.error e => Except.error e
  | Except.ok projected => mapExcept finishRow projected.dedup

/-- The CE arm of the moneyness CASE expression, band guards checked
in source order (`WHEN … THEN` chains; BETWEEN is inclusive on both
ends).  No ELSE branch: a value that matches no guard yields NULL —
shown impossible for integers below. -/
def moneynessCE (d : Int) : Option (List Char) :=
  if d ≤ -501 then some ("DEEPITM".data)
  else if -500 ≤ d ∧ d ≤ -451 then some ("ATM-10".data)
  else if -450 ≤ d ∧ d ≤ -401 then some ("ATM-9".data)
  else if -400 ≤ d ∧ d ≤ -351 then some ("ATM-8".data)
  else if -350 ≤ d ∧ d ≤ -301 then some ("ATM-7".data)
  else if -300 ≤ d ∧ d ≤ -251 then some ("ATM-6".data)
  else if -250 ≤ d ∧ d ≤ -201 then some ("ATM-5".data)
  else if -200 ≤ d ∧ d ≤ -151 then some ("ATM-4".data)
  else if -150 ≤ d ∧ d ≤ -101 then some ("ATM-3".data)
  else if -100 ≤ d ∧ d ≤ -51 then some ("ATM-2".data)
  else if -50 ≤ d ∧ d ≤ 0 then some ("ATM-1".data)
  else if 0 ≤ d ∧ d ≤ 50 then some ("ATM".data)
  else if 51 ≤ d ∧ d ≤ 100 then some ("ATM+1".data)
  else if 101 ≤ d ∧ d ≤ 150 then some ("ATM+2".data)
  else if 151 ≤ d ∧ d ≤ 200 then some ("ATM+3".data)
  else if 201 ≤ d ∧ d ≤ 250 then some ("ATM+4".data)
  else if 251 ≤ d ∧ d ≤ 300 then some ("ATM+5".data)
  else if 301 ≤ d ∧ d ≤ 350 then some ("ATM+6".data)
  else if 351 ≤ d ∧ d ≤ 400 then some ("ATM+7".data)
  else if 401 ≤ d ∧ d ≤ 450 then some ("ATM+8".data)
  else if 451 ≤ d ∧ d ≤ 500 then some ("ATM+9".data)
  else if 501 ≤ d ∧ d ≤ 550 then some ("ATM+10".data)
  else if 551 ≤ d then some ("DEEPOTM".data)
  else none

/-- The PE arm of the moneyness CASE expression: identical numeric
bands, sign-flipped labels, DEEP labels swapped. -/
def moneynessPE (d : Int) : Option (List Char) :=
  if d ≤ -501 then some ("DEEPOTM".data)
  else if -500 ≤ d ∧ d ≤ -451 then some ("ATM+10".data)
  else if -450 ≤ d ∧ d ≤ -401 then some ("ATM+9".data)
  else if -400 ≤ d ∧ d ≤ -351 then some ("ATM+8".data)
  else if -350 ≤ d ∧ d ≤ -301 then some ("ATM+7".data)
  else if -300 ≤ d ∧ d ≤ -251 then some ("ATM+6".data)
  else if -250 ≤ d ∧ d ≤ -201 then some ("ATM+5".data)
  else if -200 ≤ d ∧ d ≤ -151 then some ("ATM+4".data)
  else if -150 ≤ d ∧ d ≤ -101 then some ("ATM+3".data)
  else if -100 ≤ d ∧ d ≤ -51 then some ("ATM+2".data)
  else if -50 ≤ d ∧ d ≤ 0 then some ("ATM+1".data)
  else if 0 ≤ d ∧ d ≤ 50 then some ("ATM".data)
  else if 51 ≤ d ∧ d ≤ 100 then some ("ATM-1".data)
  else if 101 ≤ d ∧ d ≤ 150 then some ("ATM-2".data)
  else if 151 ≤ d ∧ d ≤ 200 then some ("ATM-3".data)
  else if 201 ≤ d ∧ d ≤ 250 then some ("ATM-4".data)
  else if 251 ≤ d ∧ d ≤ 300 then some ("ATM-5".data)
  else if 301 ≤ d ∧ d ≤ 350 then some ("ATM-6".data)
  else if 351 ≤ d ∧ d ≤ 400 then some ("ATM-7".data)
  else if 401 ≤ d ∧ d ≤ 450 then some ("ATM-8".data)
  else if 451 ≤ d ∧ d ≤ 500 then some ("ATM-9".data)
  else if 501 ≤ d ∧ d ≤ 550 then some ("ATM-10".data)
  else if 551 ≤ d then some ("DEEPITM".data)
  else none

/-- The full moneyness CASE of step 5.6: dispatch on `option_type`
(no ELSE, so a type that is neither CE nor PE — including NULL —
yields NULL), and inside each arm a NULL `strdifference` satisfies no
band guard, yielding NULL. -/
def moneyness (optionType : Option (List Char)) (strdifference : Option Int) :
    Option (List Char) :=
  if optionType = some ("CE".data) then
    match strdifference with
    | some d => moneynessCE d
    | none => none
  else if optionType = some ("PE".data) then
    match strdifference with
    | some d => moneynessPE d
    | none => none
  else none

/-- The 23 bucket labels of the classifier. -/
def bucketLabels : List (List Char) :=
  ["DEEPITM".data, "ATM-10".data, "ATM-9".data, "ATM-8".data, "ATM-7".data,
   "ATM-6".data, "ATM-5".data, "ATM-4".data, "ATM-3".data, "ATM-2".data,
   "ATM-1".data, "ATM".data, "ATM+1".data, "ATM+2".data, "ATM+3".data,
   "ATM+4".data, "ATM+5".data, "ATM+6".data, "ATM+7".data, "ATM+8".data,
   "ATM+9".data, "ATM+10".data, "DEEPOTM".data]

/-- The ATM-band mirror: ATM+k ↔ ATM−k, ATM fixed; every other string
(in particular the two DEEP labels) is left unchanged, so the mirror
relation genuinely fails at the extremes. -/
def mirrorLabel (l : List Char) : List Char :=
  if l = "ATM-10".data then "ATM+10".data
  else if l = "ATM-9".data then "ATM+9".data
  else if l = "ATM-8".data then "ATM+8".data
  else if l = "ATM-7".data then "ATM+7".data
  else if l = "ATM-6".data then "ATM+6".data
  else if l = "ATM-5".data then "ATM+5".data
  else if l = "ATM-4".data then "ATM+4".data
  else if l = "ATM-3".data then "ATM+3".data
  else if l = "ATM-2".data then "ATM+2".data
  else if l = "ATM-1".data then "ATM+1".data
  else if l = "ATM+1".data then "ATM-1".data
  else if l = "ATM+2".data then "ATM-2".data
  else if l = "ATM+3".data then "ATM-3".data
  else if l = "ATM+4".data then "ATM-4".data
  else if l = "ATM+5".data then "ATM-5".data
  else if l = "ATM+6".data then "ATM-6".data
  else if l = "ATM+7".data then "ATM-7".data
  else if l = "ATM+8".data then "ATM-8".data
  else if l = "ATM+9".data then "ATM-9".data
  else if l = "ATM+10".data then "ATM-10".data
  else l

/-- A row of the unified `cal_data` relation (schema order).  Columns
seeded directly from `options` are non-null; every back-filled or
derived column is nullable. -/
structure CalRow where
  symbol : List Char
  instrument : Option (List Char)
  expiry_date : Option SDate
  date : Nat
  time : Nat
  expiry_day : Option Int
  strike_price : Option Int
  option_type : Option (List Char)
  spot : Option Int
  strdifference : Option Int
  dte : Option Int
  «open» : Int
  high : Int
  low : Int
  close : Int
  volume : Int
  oi : Int
  moneyness : Option (List Char)
  idx_open : Option Int
  idx_high : Option Int
  idx_low : Option Int
  idx_close : Option Int
  fut_open : Option Int
  fut_high : Option Int
  fut_low : Option Int
  fut_close : Option Int
  fut_volume : Option Int
  fut_oi : Option Int
deriving DecidableEq

/-- A row of the `index_data` relation. -/
structure IndexRow where
  date : Nat
  time : Nat
  idx_open : Int
  idx_high : Int
  idx_low : Int
  idx_close : Int
deriving DecidableEq

/-- A row of the `future_data` relation. -/
structure FutureRow where
  date : Nat
  time : Nat
  fut_open : Int
  fut_high : Int
  fut_low : Int
  fut_close : Int
  fut_volume : Int
  fut_oi : Int
deriving DecidableEq

/-- Step 5.1: seed one `cal_data` row from an `options` row — the nine
base columns are copied, every other column starts NULL. -/
def seedCal (o : OptionRow) : CalRow :=
  { symbol := o.symbol, instrument := none, expiry_date := none,
    date := o.date, time := o.time, expiry_day := none,
    strike_price := none, option_type := none, spot := none,
    strdifference := none, dte := none,
    «open» := o.«open», high := o.high, low := o.low, close := o.close,
    volume := o.volume, oi := o.oi, moneyness := none,
    idx_open := none, idx_high := none, idx_low := none, idx_close := none,
    fut_open := none, fut_high := none, fut_low := none, fut_close := none,
    fut_volume := none, fut_oi := none }

/-- Step 5.2: `UPDATE cal_data SET instrument…option_type FROM splits s
WHERE cal_data.symbol = s.symbol`.  When several split rows share the
symbol the engine's pick is unspecified; `find?` models one such pick.
A row with no matching split is untouched. -/
def updateFromSplits (splits : List SplitRow) (r : CalRow) : CalRow :=
  match splits.find? (fun s => s.symbol = r.symbol) with
  | some s =>
      { r with instrument := some s.instrument, expiry_date := s.expiry_date,
               strike_price := some s.strike_price,
               option_type := some s.option_type }
  | none => r

/-- Step 5.3: `UPDATE cal_data SET idx_* , spot = i.idx_close FROM
index_data i WHERE cal_data.date = i.date AND cal_data.time = i.time`. -/
def updateFromIndex (idx : List IndexRow) (r : CalRow) : CalRow :=
  match idx.find? (fun i => i.date = r.date && i.time = r.time) with
  | some i =>
      { r with idx_open := some i.idx_open, idx_high := some i.idx_high,
               idx_low := some i.idx_low, idx_close := some i.idx_close,
               spot := some i.idx_close }
  | none => r

/-- Step 5.4: `UPDATE cal_data SET fut_* FROM future_data f WHERE
cal_data.date = f.date AND cal_data.time = f.time`. -/
def updateFromFuture (fut : List FutureRow) (r : CalRow) : CalRow :=
  match fut.find? (fun f => f.date = r.date && f.time = r.time) with
  | some f =>
      { r with fut_open := some f.fut_open, fut_high := some f.fut_high,
               fut_low := some f.fut_low, fut_close := some f.fut_close,
               fut_volume := some f.fut_volume, fut_oi := some f.fut_oi }
  | none => r

/-- A `cal_data` row carries one of the two extreme labels
(`moneyness IN ('DEEPITM', 'DEEPOTM')`; a NULL bucket does not
satisfy the IN predicate and is kept). -/
def isExtremeBucket (r : CalRow) : Bool :=
  r.moneyness = some ("DEEPITM".data) || r.moneyness = some ("DEEPOTM".data)

/-- The `ORDER BY date, time, symbol` lexicographic key on character
lists. -/
def charListLe : List Char → List Char → Bool
  | [], _ => true
  | _ :: _, [] => false
  | a :: as, b :: bs => if a = b then charListLe as bs else decide (a < b)

/-- The `ORDER BY date, time, symbol` comparison on `cal_data` rows. -/
def rowLe (a b : CalRow) : Bool :=
  if a.date ≠ b.date then decide (a.date < b.date)
  else if a.time ≠ b.time then decide (a.time < b.time)
  else charListLe a.symbol b.symbol

/-- Insert a row into an already ordered list (ORDER BY is modelled as
an insertion sort, which is stable and total for `rowLe`). -/
def insertRow (r : CalRow) : List CalRow → List CalRow
  | [] => [r]
  | x :: xs => if rowLe r x then r :: x :: xs else x :: insertRow r xs

/-- Sort the surviving rows by (date, time, symbol). -/
def sortRows : List CalRow → List CalRow
  | [] => []
  | r :: rs => insertRow r (sortRows rs)

/-- `filter_and_export` (steps 6 and 7): count rows, delete the
DEEPITM/DEEPOTM rows, count again, and copy the remainder ordered by
(date, time, symbol) to the output artifact.  Returns
(count before deletion, count after deletion, exported rows). -/
def filter_and_export (cal_data : List CalRow) : Nat × Nat × List CalRow :=
  let total_before := cal_data.length
  let remaining := cal_data.filter (fun r => !(isExtremeBucket r))
  let moneyness_filtered := remaining.length
  (total_before, moneyness_filtered, sortRows remaining)

/-- Processor state relevant to the validator gate: the configuration
flag, the catalogue of relations (name ↦ row count, `none` = the
relation does not exist), and the per-file `row_counts` ledger. -/
structure ProcState where
  validate : Bool
  tables : List Char → Option Nat
  row_counts : List Char → Option Nat

/-- `DuckDBProcessor.validate_data(table_name, expected_min_rows)`:
with validation off it immediately returns True, touching nothing.
Otherwise it checks existence via `information_schema`, counts the
rows, records the count in `self.row_counts` (before the threshold
comparison), and returns True exactly when the count reaches the
threshold. -/
def validate_data (st : ProcState) (table_name : List Char) (expected_min_rows : Nat) :
    Bool × ProcState :=
  if !st.validate then (true, st)
  else
    match st.tables table_name with
    | none => (false, st)
    | some row_count =>
        let st' := { st with
          row_counts := fun t => if t = table_name then some row_count else st.row_counts t }
        if row_count < expected_min_rows then (false, st') else (true, st')

/-- Outcome of one pipeline stage inside `process_file`: a boolean
return, or an exception escaping the stage. -/
inductive StageOutcome where
  | ok (b : Bool)
  | raise (msg : List Char)

/-- The short-circuiting `and` chain of the six stage calls in
`process_file`: a False return skips the remaining stages; an
exception aborts the chain. -/
def chainStages : List StageOutcome → Except (List Char) Bool
  | [] => Except.ok true
  | s :: rest =>
      match s with
      | StageOutcome.raise m => Except.error m
      | StageOutcome.ok false => Except.ok false
      | StageOutcome.ok true => chainStages rest

/-- The per-file session resources: the open connection and the
scratch `.duckdb` file created by `duckdb.connect`. -/
structure SessionState where
  connOpen : Bool
  dbFileExists : Bool
deriving DecidableEq

/-- `DuckDBProcessor.cleanup`: closes the connection and removes the
scratch database file unless `keep_temp` is set. -/
def cleanup (keep_temp : Bool) (s : SessionState) : SessionState :=
  let closed := { s with connOpen := false }
  if keep_temp then closed else { closed with dbFileExists := false }

/-- `DuckDBProcessor.process_file`: opens the scratch session, runs
the stage chain inside `try`, converts an escaped exception into a
False result (after recording the failure), and runs `cleanup` in the
`finally` block on every path.  Returns (success, final session
state, failure recorded). -/
def process_file (keep_temp : Bool) (stages : List StageOutcome) :
    Bool × SessionState × Bool :=
  let opened : SessionState := ⟨true, true⟩
  match chainStages stages with
  | Except.ok b => (b, cleanup keep_temp opened, false)
  | Except.error _ => (false, cleanup keep_temp opened, true)

/-- The batch loop body over the matched files: each file is processed
through `process_file` with its own stage outcomes and session. -/
def batchRun (keep_temp : Bool) (stagesOf : List Char → List StageOutcome)
    (files : List (List Char)) : List (Bool × SessionState × Bool) :=
  files.map (fun f => process_file keep_temp (stagesOf f))

/-- How the `try` block of `main` terminates: the batch loop runs to
completion, the user interrupts (KeyboardInterrupt), or an unhandled
exception escapes. -/
inductive MainOutcome where
  | completes
  | interrupted
  | faulted

/-- The body of `main`'s `try` block: returns 1 when no input file
matches the pattern, otherwise runs the batch loop — whose per-file
failures are swallowed by `process_file` — and returns 0
unconditionally after the summary. -/
def mainBody (files : List (List Char)) (succeeds : List Char → Bool) : Nat :=
  if files.isEmpty then 1
  else
    let _summary := (files.length, (files.filter succeeds).length)
    0

/-- `main`'s exit code: the try-block value on normal completion, 130
on KeyboardInterrupt, 1 on any other unhandled exception. -/
def mainExit (files : List (List Char)) (succeeds : List Char → Bool) :
    MainOutcome → Nat
  | MainOutcome.completes => mainBody files succeeds
  | MainOutcome.interrupted => 130
  | MainOutcome.faulted => 1

/-- The nine base columns of `cal_data` seeded from `options` in step
5.1, as one tuple, for frame-condition statements. -/
def baseCols (r : CalRow) : List Char × Nat × Nat × Int × Int × Int × Int × Int × Int :=
  (r.symbol, r.date, r.time, r.«open», r.high, r.low, r.close, r.volume, r.oi)

/-- A projected CTE row is well-formed: each field is the
corresponding capture-group extraction of its own symbol, and the
strike cast of that symbol succeeded with its strike value.  Every row
produced by `parseCandidate` satisfies this, which makes the parse a
function of the symbol alone (plus the carried trade date). -/
def parsedWF (p : ParsedSym) : Prop :=
  p.instrument = regexp_extract p.symbol 1 ∧
  p.day = regexp_extract p.symbol 2 ∧
  p.month = regexp_extract p.symbol 3 ∧
  p.year = regexp_extract p.symbol 4 ∧
  castInteger (regexp_extract p.symbol 5) = Except.ok p.strike_price ∧
  p.option_type = regexp_extract p.symbol 6

/-- An enriched row with a given bucket label, for concrete export
scenarios. -/
def sampleCal (sym : List Char) (d t : Nat) (m : Option (List Char)) : CalRow :=
  { seedCal ⟨sym, d, t, 1, 1, 1, 1, 1, 1⟩ with moneyness := m }

/-- An `options` row whose NIFTY-prefixed symbol does not match the
symbol grammar (it still passes extraction, whose filter only asks for
a CE/PE substring). -/
def niftyBadRow : OptionRow := ⟨"NIFTY25XYZCE".data, 1, 0, 0, 0, 0, 0, 0, 0⟩

/-- A parseable option row observed on trade date 1. -/
def c2optA : OptionRow := ⟨"NIFTY25JAN2421500CE".data, 1, 0, 0, 0, 0, 0, 0, 0⟩

/-- The same option symbol observed on trade date 2. -/
def c2optB : OptionRow := ⟨"NIFTY25JAN2421500CE".data, 2, 0, 0, 0, 0, 0, 0, 0⟩

/-- The split row the decomposer derives from `c2optA`. -/
def c2rowA : SplitRow :=
  ⟨"NIFTY25JAN2421500CE".data, "NIFTY".data, some ⟨2024, 1, 25⟩, 21500, "CE".data, 1⟩

/-- The split row the decomposer derives from `c2optB` — same symbol,
different trade date. -/
def c2rowB : SplitRow :=
  ⟨"NIFTY25JAN2421500CE".data, "NIFTY".data, some ⟨2024, 1, 25⟩, 21500, "CE".data, 2⟩

/-- A processor state with validation enabled and one 150-row
`options` relation, for exercising the gate. -/
def gateState : ProcState :=
  { validate := true
    tables := fun t => if t = "options".data then some 150 else none
    row_counts := fun _ => none }

/-- Every integer strike-distance lands in some CE band: the band
guards plus the two extreme guards leave no integer uncovered. -/
lemma moneynessCE_covers (d : Int) : ∃ l, moneynessCE d = some l ∧ l ∈ bucketLabels := by
  unfold moneynessCE
  by_cases h1 : d ≤ -501
  · rw [if_pos h1]
    exact ⟨_, rfl, by decide⟩
  rw [if_neg h1]
  by_cases h2 : -500 ≤ d ∧ d ≤ -451
  · rw [if_pos h2]
    exact ⟨_, rfl, by decide⟩
  rw [if_neg h2]
  by_cases h3 : -450 ≤ d ∧ d ≤ -401
  · rw [if_pos h3]
    exact ⟨_, rfl, by decide⟩
  rw [if_neg h3]
  by_cases h4 : -400 ≤ d ∧ d ≤ -351
  · rw [if_pos h4]
    exact ⟨_, rfl, by decide⟩
  rw [if_neg h4]
  by_cases h5 : -350 ≤ d ∧ d ≤ -301
  · rw [if_pos h5]
    exact ⟨_, rfl, by decide⟩
  rw [if_neg h5]
  by_cases h6 : -300 ≤ d ∧ d ≤ -251
  · rw [if_pos h6]
    exact ⟨_, rfl, by decide⟩
  rw [if_neg h6]
  by_cases h7 : -250 ≤ d ∧ d ≤ -201
  · rw [if_pos h7]
    exact ⟨_, rfl, by decide⟩
  rw [if_neg h7]
  by_cases h8 : -200 ≤ d ∧ d ≤ -151
  · rw [if_pos h8]
    exact ⟨_, rfl, by decide⟩
  rw [if_neg h8]
  by_cases h9 : -150 ≤ d ∧ d ≤ -101
  · rw [if_pos h9]
    exact ⟨_, rfl, by decide⟩
  rw [if_neg h9]
  by_cases h10 : -100 ≤ d ∧ d ≤ -51
  · rw [if_pos h10]
    exact ⟨_, rfl, by decide⟩
  rw [if_neg h10]
  by_cases h11 : -50 ≤ d ∧ d ≤ 0
  · rw [if_pos h11]
    exact ⟨_, rfl, by decide⟩
  rw [if_neg h11]
  by_cases h12 : 0 ≤ d ∧ d ≤ 50
  · rw [if_pos h12]
    exact ⟨_, rfl, by decide⟩
  rw [if_neg h12]
  by_cases h13 : 51 ≤ d ∧ d ≤ 100
  · rw [if_pos h13]
    exact ⟨_, rfl, by decide⟩
  rw [if_neg h13]
  by_cases h14 : 101 ≤ d ∧ d ≤ 150
  · rw [if_pos h14]
    exact ⟨_, rfl, by decide⟩
  rw [if_neg h14]
  by_cases h15 : 151 ≤ d ∧ d ≤ 200
  · rw [if_pos h15]
    exact ⟨_, rfl, by decide⟩
  rw [if_neg h15]
  by_cases h16 : 201 ≤ d ∧ d ≤ 250
  · rw [if_pos h16]
    exact ⟨_, rfl, by decide⟩
  rw [if_neg h16]
  by_cases h17 : 251 ≤ d ∧ d ≤ 300
  · rw [if_pos h17]
    exact ⟨_, rfl, by decide⟩
  rw [if_neg h17]
  by_cases h18 : 301 ≤ d ∧ d ≤ 350
  · rw [if_pos h18]
    exact ⟨_, rfl, by decide⟩
  rw [if_neg h18]
  by_cases h19 : 351 ≤ d ∧ d ≤ 400
  · rw [if_pos h19]
    exact ⟨_, rfl, by decide⟩
  rw [if_neg h19]
  by_cases h20 : 401 ≤ d ∧ d ≤ 450
  · rw [if_pos h20]
    exact ⟨_, rfl, by decide⟩
  rw [if_neg h20]
  by_cases h21 : 451 ≤ d ∧ d ≤ 500
  · rw [if_pos h21]
    exact ⟨_, rfl, by decide⟩
  rw [if_neg h21]
  by_cases h22 : 501 ≤ d ∧ d ≤ 550
  · rw [if_pos h22]
    exact ⟨_, rfl, by decide⟩
  rw [if_neg h22]
  by_cases h23 : 551 ≤ d
  · rw [if_pos h23]
    exact ⟨_, rfl, by decide⟩
  rw [if_neg h23]
  exfalso
  omega

/-- Every integer strike-distance lands in some PE band. -/
lemma moneynessPE_covers (d : Int) : ∃ l, moneynessPE d = some l ∧ l ∈ bucketLabels := by
  unfold moneynessPE
  by_cases h1 : d ≤ -501
  · rw [if_pos h1]
    exact ⟨_, rfl, by decide⟩
  rw [if_neg h1]
  by_cases h2 : -500 ≤ d ∧ d ≤ -451
  · rw [if_pos h2]
    exact ⟨_, rfl, by decide⟩
  rw [if_neg h2]
  by_cases h3 : -450 ≤ d ∧ d ≤ -401
  · rw [if_pos h3]
    exact ⟨_, rfl, by decide⟩
  rw [if_neg h3]
  by_cases h4 : -400 ≤ d ∧ d ≤ -351
  · rw [if_pos h4]
    exact ⟨_, rfl, by decide⟩
  rw [if_neg h4]
  by_cases h5 : -350 ≤ d ∧ d ≤ -301
  · rw [if_pos h5]
    exact ⟨_, rfl, by decide⟩
  rw [if_neg h5]
  by_cases h6 : -300 ≤ d ∧ d ≤ -251
  · rw [if_pos h6]
    exact ⟨_, rfl, by decide⟩
  rw [if_neg h6]
  by_cases h7 : -250 ≤ d ∧ d ≤ -201
  · rw [if_pos h7]
    exact ⟨_, rfl, by decide⟩
  rw [if_neg h7]
  by_cases h8 : -200 ≤ d ∧ d ≤ -151
  · rw [if_pos h8]
    exact ⟨_, rfl, by decide⟩
  rw [if_neg h8]
  by_cases h9 : -150 ≤ d ∧ d ≤ -101
  · rw [if_pos h9]
    exact ⟨_, rfl, by decide⟩
  rw [if_neg h9]
  by_cases h10 : -100 ≤ d ∧ d ≤ -51
  · rw [if_pos h10]
    exact ⟨_, rfl, by decide⟩
  rw [if_neg h10]
  by_cases h11 : -50 ≤ d ∧ d ≤ 0
  · rw [if_pos h11]
    exact ⟨_, rfl, by decide⟩
  rw [if_neg h11]
  by_cases h12 : 0 ≤ d ∧ d ≤ 50
  · rw [if_pos h12]
    exact ⟨_, rfl, by decide⟩
  rw [if_neg h12]
  by_cases h13 : 51 ≤ d ∧ d ≤ 100
  · rw [if_pos h13]
    exact ⟨_, rfl, by decide⟩
  rw [if_neg h13]
  by_cases h14 : 101 ≤ d ∧ d ≤ 150
  · rw [if_pos h14]
    exact ⟨_, rfl, by decide⟩
  rw [if_neg h14]
  by_cases h15 : 151 ≤ d ∧ d ≤ 200
  · rw [if_pos h15]
    exact ⟨_, rfl, by decide⟩
  rw [if_neg h15]
  by_cases h16 : 201 ≤ d ∧ d ≤ 250
  · rw [if_pos h16]
    exact ⟨_, rfl, by decide⟩
  rw [if_neg h16]
  by_cases h17 : 251 ≤ d ∧ d ≤ 300
  · rw [if_pos h17]
    exact ⟨_, rfl, by decide⟩
  rw [if_neg h17]
  by_cases h18 : 301 ≤ d ∧ d ≤ 350
  · rw [if_pos h18]
    exact ⟨_, rfl, by decide⟩
  rw [if_neg h18]
  by_cases h19 : 351 ≤ d ∧ d ≤ 400
  · rw [if_pos h19]
    exact ⟨_, rfl, by decide⟩
  rw [if_neg h19]
  by_cases h20 : 401 ≤ d ∧ d ≤ 450
  · rw [if_pos h20]
    exact ⟨_, rfl, by decide⟩
  rw [if_neg h20]
  by_cases h21 : 451 ≤ d ∧ d ≤ 500
  · rw [if_pos h21]
    exact ⟨_, rfl, by decide⟩
  rw [if_neg h21]
  by_cases h22 : 501 ≤ d ∧ d ≤ 550
  · rw [if_pos h22]
    exact ⟨_, rfl, by decide⟩
  rw [if_neg h22]
  by_cases h23 : 551 ≤ d
  · rw [if_pos h23]
    exact ⟨_, rfl, by decide⟩
  rw [if_neg h23]
  exfalso
  omega

/-- C4: away from the DEEP extremes the CE and PE labels at the same
signed strike-distance are mirror images (ATM+k ↔ ATM−k, ATM fixed);
at the extremes the mirror relation fails and the DEEP labels swap
their ITM/OTM sense instead. -/
theorem C4_ce_pe_mirror : ∀ d : Int,
    (-500 ≤ d → d ≤ 550 → moneynessPE d = (moneynessCE d).map mirrorLabel) ∧
    (d ≤ -501 →
      moneynessCE d = some ("DEEPITM".data) ∧ moneynessPE d = some ("DEEPOTM".data) ∧
      moneynessPE d ≠ (moneynessCE d).map mirrorLabel) ∧
    (551 ≤ d →
      moneynessCE d = some ("DEEPOTM".data) ∧ moneynessPE d = some ("DEEPITM".data) ∧
      moneynessPE d ≠ (moneynessCE d).map mirrorLabel) := by
  intro d
  refine ⟨?_, ?_, ?_⟩
  · intro hlo hhi
    unfold moneynessPE moneynessCE
    by_cases h1 : d ≤ -501
    · exfalso; omega
    simp only [if_neg h1]
    by_cases h2 : -500 ≤ d ∧ d ≤ -451
    · simp only [if_pos h2]; decide
    simp only [if_neg h2]
    by_cases h3 : -450 ≤ d ∧ d ≤ -401
    · simp only [if_pos h3]; decide
    simp only [if_neg h3]
    by_cases h4 : -400 ≤ d ∧ d ≤ -351
    · simp only [if_pos h4]; decide
    simp only [if_neg h4]
    by_cases h5 : -350 ≤ d ∧ d ≤ -301
    · simp only [if_pos h5]; decide
    simp only [if_neg h5]
    by_cases h6 : -300 ≤ d ∧ d ≤ -251
    · simp only [if_pos h6]; decide
    simp only [if_neg h6]
    by_cases h7 : -250 ≤ d ∧ d ≤ -201
    · simp only [if_pos h7]; decide
    simp only [if_neg h7]
    by_cases h8 : -200 ≤ d ∧ d ≤ -151
    · simp only [if_pos h8]; decide
    simp only [if_neg h8]
    by_cases h9 : -150 ≤ d ∧ d ≤ -101
    · simp only [if_pos h9]; decide
    simp only [if_neg h9]
    by_cases h10 : -100 ≤ d ∧ d ≤ -51
    · simp only [if_pos h10]; decide
    simp only [if_neg h10]
    by_cases h11 : -50 ≤ d ∧ d ≤ 0
    · simp only [if_pos h11]; decide
    simp only [if_neg h11]
    by_cases h12 : 0 ≤ d ∧ d ≤ 50
    · simp only [if_pos h12]; decide
    simp only [if_neg h12]
    by_cases h13 : 51 ≤ d ∧ d ≤ 100
    · simp only [if_pos h13]; decide
    simp only [if_neg h13]
    by_cases h14 : 101 ≤ d ∧ d ≤ 150
    · simp only [if_pos h14]; decide
    simp only [if_neg h14]
    by_cases h15 : 151 ≤ d ∧ d ≤ 200
    · simp only [if_pos h15]; decide
    simp only [if_neg h15]
    by_cases h16 : 201 ≤ d ∧ d ≤ 250
    · simp only [if_pos h16]; decide
    simp only [if_neg h16]
    by_cases h17 : 251 ≤ d ∧ d ≤ 300
    · simp only [if_pos h17]; decide
    simp only [if_neg h17]
    by_cases h18 : 301 ≤ d ∧ d ≤ 350
    · simp only [if_pos h18]; decide
    simp only [if_neg h18]
    by_cases h19 : 351 ≤ d ∧ d ≤ 400
    · simp only [if_pos h19]; decide
    simp only [if_neg h19]
    by_cases h20 : 401 ≤ d ∧ d ≤ 450
    · simp only [if_pos h20]; decide
    simp only [if_neg h20]
    by_cases h21 : 451 ≤ d ∧ d ≤ 500
    · simp only [if_pos h21]; decide
    simp only [if_neg h21]
    by_cases h22 : 501 ≤ d ∧ d ≤ 550
    · simp only [if_pos h22]; decide
    simp only [if_neg h22]
    by_cases h23 : 551 ≤ d
    · exfalso; omega
    simp only [if_neg h23]
    exfalso; omega
  · intro hext
    unfold moneynessPE moneynessCE
    simp only [if_pos hext]
    decide
  · intro hext
    unfold moneynessPE moneynessCE
    simp only [if_neg (show ¬(d ≤ -501) by omega)]
    simp only [if_neg (show ¬(-500 ≤ d ∧ d ≤ -451) by omega)]
    simp only [if_neg (show ¬(-450 ≤ d ∧ d ≤ -401) by omega)]
    simp only [if_neg (show ¬(-400 ≤ d ∧ d ≤ -351) by omega)]
    simp only [if_neg (show ¬(-350 ≤ d ∧ d ≤ -301) by omega)]
    simp only [if_neg (show ¬(-300 ≤ d ∧ d ≤ -251) by omega)]
    simp only [if_neg (show ¬(-250 ≤ d ∧ d ≤ -201) by omega)]
    simp only [if_neg (show ¬(-200 ≤ d ∧ d ≤ -151) by omega)]
    simp only [if_neg (show ¬(-150 ≤ d ∧ d ≤ -101) by omega)]
    simp only [if_neg (show ¬(-100 ≤ d ∧ d ≤ -51) by omega)]
    simp only [if_neg (show ¬(-50 ≤ d ∧ d ≤ 0) by omega)]
    simp only [if_neg (show ¬(0 ≤ d ∧ d ≤ 50) by omega)]
    simp only [if_neg (show ¬(51 ≤ d ∧ d ≤ 100) by omega)]
    simp only [if_neg (show ¬(101 ≤ d ∧ d ≤ 150) by omega)]
    simp only [if_neg (show ¬(151 ≤ d ∧ d ≤ 200) by omega)]
    simp only [if_neg (show ¬(201 ≤ d ∧ d ≤ 250) by omega)]
    simp only [if_neg (show ¬(251 ≤ d ∧ d ≤ 300) by omega)]
    simp only [if_neg (show ¬(301 ≤ d ∧ d ≤ 350) by omega)]
    simp only [if_neg (show ¬(351 ≤ d ∧ d ≤ 400) by omega)]
    simp only [if_neg (show ¬(401 ≤ d ∧ d ≤ 450) by omega)]
    simp only [if_neg (show ¬(451 ≤ d ∧ d ≤ 500) by omega)]
    simp only [if_neg (show ¬(501 ≤ d ∧ d ≤ 550) by omega)]
    simp only [if_pos hext]
    decide

/-- C4 witness: the mirror identity at distance 75 and the swapped
DEEP labels at distances -600 and 600. -/
theorem C4_ce_pe_mirror_witness :
    (moneynessPE 75 = (moneynessCE 75).map mirrorLabel) ∧
    (moneynessCE (-600) = some ("DEEPITM".data) ∧
     moneynessPE (-600) = some ("DEEPOTM".data) ∧
     moneynessPE (-600) ≠ (moneynessCE (-600)).map mirrorLabel) ∧
    (moneynessCE 600 = some ("DEEPOTM".data) ∧
     moneynessPE 600 = some ("DEEPITM".data) ∧
     moneynessPE 600 ≠ (moneynessCE 600).map mirrorLabel) :=
  ⟨(C4_ce_pe_mirror 75).1 (by decide) (by decide),
   (C4_ce_pe_mirror (-600)).2.1 (by decide),
   (C4_ce_pe_mirror 600).2.2 (by decide)⟩

/-- C1 counterexample: the claim fixes strike-distance 0 on a CE row
to "ATM" — but the band listed first, BETWEEN -50 AND 0, also covers 0
and the CASE resolves shared boundaries by band order, so the code
yields "ATM-1" there, not "ATM". -/
theorem C1_claim_counterexample :
    moneyness (some ("CE".data)) (some 0) = some ("ATM-1".data) ∧
    moneyness (some ("CE".data)) (some 0) ≠ some ("ATM".data) := by
  decide

/-- C1 amended: the classifier is a pure function of
(option type, strike-distance); at the stated boundaries a CE row maps
-501 to DEEPITM and 551 to DEEPOTM, a PE row maps -501 to DEEPOTM and
551 to DEEPITM, and at the shared boundary 0 a CE row gets "ATM-1"
(with PE symmetrically getting "ATM+1"), the earlier-listed band
winning per band order. -/
theorem C1_moneyness_boundaries :
    moneyness (some ("CE".data)) (some 0) = some ("ATM-1".data) ∧
    moneyness (some ("PE".data)) (some 0) = some ("ATM+1".data) ∧
    moneyness (some ("CE".data)) (some (-501)) = some ("DEEPITM".data) ∧
    moneyness (some ("CE".data)) (some 551) = some ("DEEPOTM".data) ∧
    moneyness (some ("PE".data)) (some (-501)) = some ("DEEPOTM".data) ∧
    moneyness (some ("PE".data)) (some 551) = some ("DEEPITM".data) := by
  decide

/-- C8: the classifier yields a NULL bucket exactly on rows whose
option type is neither CE nor PE or whose strike-distance is NULL, and
every other row receives one of the 23 labels — the eleven bands per
side plus the two extremes leave no integer distance uncovered. -/
theorem C8_null_bucket : ∀ (t : Option (List Char)) (d : Option Int),
    (moneyness t d = none ↔ ((t ≠ some ("CE".data) ∧ t ≠ some ("PE".data)) ∨ d = none)) ∧
    (∀ l, moneyness t d = some l → l ∈ bucketLabels) := by
  intro t d
  by_cases hce : t = some ("CE".data)
  · cases d with
    | none =>
        constructor
        · simp [moneyness, hce]
        · intro l hl
          simp [moneyness, hce] at hl
    | some v =>
        obtain ⟨l, hl, hmem⟩ := moneynessCE_covers v
        constructor
        · simp [moneyness, hce, hl]
        · intro l2 hl2
          simp [moneyness, hce, hl] at hl2
          rw [← hl2]
          exact hmem
  · by_cases hpe : t = some ("PE".data)
    · cases d with
      | none =>
          constructor
          · simp [moneyness, hce, hpe]
          · intro l hl
            simp [moneyness, hce, hpe] at hl
      | some v =>
          obtain ⟨l, hl, hmem⟩ := moneynessPE_covers v
          constructor
          · simp [moneyness, hce, hpe, hl]
          · intro l2 hl2
            simp [moneyness, hce, hpe, hl] at hl2
            rw [← hl2]
            exact hmem
    · constructor
      · simp [moneyness, hce, hpe]
      · intro l hl
        simp [moneyness, hce, hpe] at hl

/-- C8 witness: a CE row at distance 0 gets a real label, which is one
of the 23 buckets. -/
theorem C8_null_bucket_witness : ("ATM-1".data) ∈ bucketLabels :=
  (C8_null_bucket (some ("CE".data)) (some 0)).2 ("ATM-1".data) (by decide)

/-- Membership is preserved by ordered insertion. -/
lemma mem_insertRow {a r : CalRow} : ∀ {l : List CalRow}, a ∈ insertRow r l ↔ a = r ∨ a ∈ l := by
  intro l
  induction l with
  | nil => simp [insertRow]
  | cons x xs ih =>
      unfold insertRow
      by_cases h : rowLe r x
      · simp [h]
      · simp [h, ih]
        tauto

/-- Sorting permutes: membership is unchanged by `sortRows`. -/
lemma mem_sortRows {a : CalRow} : ∀ {l : List CalRow}, a ∈ sortRows l ↔ a ∈ l := by
  intro l
  induction l with
  | nil => simp [sortRows]
  | cons x xs ih => simp [sortRows, mem_insertRow, ih]

/-- Keeping the non-`p` rows leaves exactly length-minus-count rows. -/
lemma length_filter_not_countP (p : CalRow → Bool) (l : List CalRow) :
    (l.filter (fun r => !(p r))).length = l.length - l.countP p := by
  induction l with
  | nil => rfl
  | cons x xs ih =>
      have hle := List.countP_le_length p (l := xs)
      by_cases h : p x <;>
        simp [List.filter_cons, List.countP_cons, h, ih] <;> omega

/-- C5: the exported artifact never contains a DEEPITM or DEEPOTM row,
and the post-deletion row count is the pre-deletion count minus
exactly the number of rows that carried one of those two labels. -/
theorem C5_export_filter : ∀ (cal : List CalRow),
    (∀ r ∈ (filter_and_export cal).2.2,
      r.moneyness ≠ some ("DEEPITM".data) ∧ r.moneyness ≠ some ("DEEPOTM".data)) ∧
    (filter_and_export cal).2.1 = (filter_and_export cal).1 - cal.countP isExtremeBucket := by
  intro cal
  constructor
  · intro r hr
    have hm : r ∈ cal.filter (fun x => !(isExtremeBucket x)) := by
      rw [← mem_sortRows]
      exact hr
    have hkeep : isExtremeBucket r = false := by
      simpa using (List.mem_filter.mp hm).2
    unfold isExtremeBucket at hkeep
    simp only [Bool.or_eq_false_iff, decide_eq_false_iff_not] at hkeep
    exact hkeep
  · exact length_filter_not_countP isExtremeBucket cal

/-- C5 witness: a two-row table with one DEEPITM row exports only the
surviving ATM row, and the counters drop from 2 to 1. -/
theorem C5_export_filter_witness :
    ((sampleCal ("A".data) 1 1 (some ("ATM".data))).moneyness ≠ some ("DEEPITM".data) ∧
     (sampleCal ("A".data) 1 1 (some ("ATM".data))).moneyness ≠ some ("DEEPOTM".data)) ∧
    (filter_and_export
        [sampleCal ("A".data) 1 1 (some ("ATM".data)),
         sampleCal ("B".data) 1 2 (some ("DEEPITM".data))]).2.1 =
      (filter_and_export
        [sampleCal ("A".data) 1 1 (some ("ATM".data)),
         sampleCal ("B".data) 1 2 (some ("DEEPITM".data))]).1 -
      ([sampleCal ("A".data) 1 1 (some ("ATM".data)),
        sampleCal ("B".data) 1 2 (some ("DEEPITM".data))]).countP isExtremeBucket :=
  ⟨(C5_export_filter
      [sampleCal ("A".data) 1 1 (some ("ATM".data)),
       sampleCal ("B".data) 1 2 (some ("DEEPITM".data))]).1
     (sampleCal ("A".data) 1 1 (some ("ATM".data))) (by decide),
   (C5_export_filter
      [sampleCal ("A".data) 1 1 (some ("ATM".data)),
       sampleCal ("B".data) 1 2 (some ("DEEPITM".data))]).2⟩

/-- C6: the batch exits 0 whenever the loop completes over a non-empty
file list — per-file failures included, since `process_file` swallows
them — exits 130 on a user interrupt, 1 on an unhandled fault, and 1
when no input file matches the pattern. -/
theorem C6_exit_codes : ∀ (files : List (List Char)) (succeeds : List Char → Bool),
    (files ≠ [] → mainExit files succeeds MainOutcome.completes = 0) ∧
    mainExit files succeeds MainOutcome.interrupted = 130 ∧
    mainExit files succeeds MainOutcome.faulted = 1 ∧
    mainExit [] succeeds MainOutcome.completes = 1 := by
  intro files succeeds
  refine ⟨?_, rfl, rfl, rfl⟩
  intro h
  simp [mainExit, mainBody, h]

/-- C6 witness: a two-file batch in which one file fails still exits
with code 0. -/
theorem C6_exit_codes_witness :
    mainExit ["a".data, "b".data] (fun f => f = "a".data) MainOutcome.completes = 0 :=
  (C6_exit_codes ["a".data, "b".data] (fun f => f = "a".data)).1 (by decide)

/-- C7: with validation on, the gate answers true exactly when the
relation exists with at least the requested rows, and whenever the
relation exists its observed count is recorded in the ledger (whether
or not the threshold is met); with validation off the gate returns
true and leaves the whole state untouched. -/
theorem C7_validator_gate : ∀ (st : ProcState) (name : List Char) (min_rows : Nat),
    (st.validate = true →
      ((validate_data st name min_rows).1 = true ↔
        ∃ n, st.tables name = some n ∧ min_rows ≤ n)) ∧
    (st.validate = true → ∀ n, st.tables name = some n →
      (validate_data st name min_rows).2.row_counts name = some n) ∧
    (st.validate = false → validate_data st name min_rows = (true, st)) := by
  intro st name min_rows
  refine ⟨?_, ?_, ?_⟩
  · intro hv
    unfold validate_data
    rw [hv]
    cases h : st.tables name with
    | none => simp [h]
    | some n =>
        by_cases hlt : n < min_rows <;> simp [h, hlt] <;> omega
  · intro hv n h
    unfold validate_data
    rw [hv]
    simp only [Bool.not_true, Bool.false_eq_true, if_false, h]
    by_cases hlt : n < min_rows <;> simp [hlt]
  · intro hv
    unfold validate_data
    rw [hv]
    simp

/-- C7 witness: on a state holding a 150-row options relation, the
gate at threshold 100 answers true and the ledger records 150; on the
same state with validation off the call is the identity. -/
theorem C7_validator_gate_witness :
    (validate_data gateState ("options".data) 100).1 = true ∧
    (validate_data gateState ("options".data) 100).2.row_counts ("options".data) = some 150 ∧
    validate_data { gateState with validate := false } ("options".data) 100 =
      (true, { gateState with validate := false }) :=
  ⟨((C7_validator_gate gateState ("options".data) 100).1 rfl).mpr ⟨150, by decide, by decide⟩,
   (C7_validator_gate gateState ("options".data) 100).2.1 rfl 150 (by decide),
   (C7_validator_gate { gateState with validate := false } ("options".data) 100).2.2 rfl⟩

/-- C9: whatever a file's stage outcomes are — all stages succeed, a
stage returns false, or a stage raises — every file processed by the
batch ends with its session closed and its scratch database file
deleted unless the keep-temp option is set. -/
theorem C9_cleanup_always : ∀ (keep_temp : Bool)
    (stagesOf : List Char → List StageOutcome) (files : List (List Char)),
    ∀ res ∈ batchRun keep_temp stagesOf files,
      res.2.1.connOpen = false ∧ res.2.1.dbFileExists = keep_temp := by
  intro keep_temp stagesOf files res hres
  simp only [batchRun, List.mem_map] at hres
  obtain ⟨f, _, hf⟩ := hres
  subst hf
  unfold process_file
  cases chainStages (stagesOf f) with
  | ok b => cases keep_temp <;> simp [cleanup]
  | error e => cases keep_temp <;> simp [cleanup]

/-- C9 witness: a file whose stage chain raises mid-pipeline still
ends cleaned up (connection closed, scratch file deleted). -/
theorem C9_cleanup_always_witness :
    (process_file false [StageOutcome.ok true, StageOutcome.raise ("boom".data)]).2.1.connOpen
      = false ∧
    (process_file false [StageOutcome.ok true, StageOutcome.raise ("boom".data)]).2.1.dbFileExists
      = false :=
  C9_cleanup_always false
    (fun _ => [StageOutcome.ok true, StageOutcome.raise ("boom".data)]) ["f".data]
    (process_file false [StageOutcome.ok true, StageOutcome.raise ("boom".data)])
    (by simp [batchRun])

/-- Step 5.2 touches only its four target columns. -/
lemma updateFromSplits_base (splits : List SplitRow) (r : CalRow) :
    baseCols (updateFromSplits splits r) = baseCols r := by
  unfold updateFromSplits
  cases splits.find? (fun s => s.symbol = r.symbol) <;> rfl

/-- Step 5.3 touches only the idx columns and spot. -/
lemma updateFromIndex_base (idx : List IndexRow) (r : CalRow) :
    baseCols (updateFromIndex idx r) = baseCols r := by
  unfold updateFromIndex
  cases idx.find? (fun i => i.date = r.date && i.time = r.time) <;> rfl

/-- Step 5.4 touches only the fut columns. -/
lemma updateFromFuture_base (fut : List FutureRow) (r : CalRow) :
    baseCols (updateFromFuture fut r) = baseCols r := by
  unfold updateFromFuture
  cases fut.find? (fun f => f.date = r.date && f.time = r.time) <;> rfl

/-- C10: after the three keyed back-fill updates (splits by symbol,
index by (date,time), future by (date,time)), the nine base columns
seeded from the options row are exactly what the seed copy left. -/
theorem C10_base_columns_frame : ∀ (o : OptionRow) (splits : List SplitRow)
    (idx : List IndexRow) (fut : List FutureRow),
    baseCols (updateFromFuture fut (updateFromIndex idx (updateFromSplits splits (seedCal o))))
      = baseCols (seedCal o) := by
  intro o splits idx fut
  rw [updateFromFuture_base, updateFromIndex_base, updateFromSplits_base]

/-- A successful `mapExcept` run relates input and output pointwise. -/
lemma mapExcept_ok_forall₂ {α β ε : Type} {f : α → Except ε β} :
    ∀ {l : List α} {l2 : List β}, mapExcept f l = Except.ok l2 →
      List.Forall₂ (fun a b => f a = Except.ok b) l l2 := by
  intro l
  induction l with
  | nil =>
      intro l2 h
      unfold mapExcept at h
      injection h with h
      subst h
      exact List.Forall₂.nil
  | cons a as ih =>
      intro l2 h
      unfold mapExcept at h
      cases hfa : f a with
      | error e => simp [hfa] at h
      | ok b =>
          simp only [hfa] at h
          cases hrest : mapExcept f as with
          | error e => simp [hrest] at h
          | ok bs =>
              simp only [hrest] at h
              injection h with h
              subst h
              exact List.Forall₂.cons hfa (ih hrest)

/-- Every element of the right list of a `Forall₂` has a related
element on the left. -/
lemma forall₂_mem_right {α β : Type} {R : α → β → Prop} :
    ∀ {l : List α} {l2 : List β}, List.Forall₂ R l l2 → ∀ b ∈ l2, ∃ a ∈ l, R a b := by
  intro l l2 h
  induction h with
  | nil => intro b hb; cases hb
  | cons hR _ ih =>
      intro b hb
      cases hb with
      | head => exact ⟨_, List.mem_cons_self _ _, hR⟩
      | tail _ hb2 =>
          obtain ⟨a, ha, hab⟩ := ih b hb2
          exact ⟨a, List.mem_cons_of_mem _ ha, hab⟩

/-- Every row the CTE projection produces is well-formed: its fields
are the capture groups of its own symbol. -/
lemma parseCandidate_wf {o : OptionRow} {p : ParsedSym}
    (h : parseCandidate o = Except.ok p) : parsedWF p := by
  unfold parseCandidate at h
  cases hc : castInteger (regexp_extract o.symbol 5) with
  | error e => simp [hc] at h
  | ok strike =>
      simp only [hc] at h
      injection h with h
      subst h
      exact ⟨rfl, rfl, rfl, rfl, hc, rfl⟩

/-- Two well-formed projected rows with the same symbol agree on every
parsed field — the decomposition is a function of the symbol. -/
lemma same_symbol_fields {p q : ParsedSym} (hp : parsedWF p) (hq : parsedWF q)
    (hs : p.symbol = q.symbol) :
    p.instrument = q.instrument ∧ p.day = q.day ∧ p.month = q.month ∧
    p.year = q.year ∧ p.strike_price = q.strike_price ∧
    p.option_type = q.option_type := by
  obtain ⟨hi1, hd1, hm1, hy1, hs1, ht1⟩ := hp
  obtain ⟨hi2, hd2, hm2, hy2, hs2, ht2⟩ := hq
  rw [hs] at hi1 hd1 hm1 hy1 hs1 ht1
  refine ⟨hi1.trans hi2.symm, hd1.trans hd2.symm, hm1.trans hm2.symm,
    hy1.trans hy2.symm, ?_, ht1.trans ht2.symm⟩
  rw [hs1] at hs2
  exact Except.ok.inj hs2

/-- Projected rows are determined by their eight fields. -/
lemma parsedSym_eq {p q : ParsedSym} (h1 : p.symbol = q.symbol)
    (h2 : p.instrument = q.instrument) (h3 : p.day = q.day)
    (h4 : p.month = q.month) (h5 : p.year = q.year)
    (h6 : p.strike_price = q.strike_price) (h7 : p.option_type = q.option_type)
    (h8 : p.date = q.date) : p = q := by
  cases p
  cases q
  simp_all

/-- `finishRow` carries symbol, date and the already-parsed fields
through unchanged. -/
lemma finishRow_shape {p : ParsedSym} {r : SplitRow} (h : finishRow p = Except.ok r) :
    r.symbol = p.symbol ∧ r.date = p.date ∧ r.instrument = p.instrument ∧
    r.strike_price = p.strike_price ∧ r.option_type = p.option_type := by
  unfold finishRow at h
  cases hy : castInteger p.year with
  | error e => simp [hy] at h
  | ok yn =>
      simp only [hy] at h
      cases hd : castInteger p.day with
      | error e => simp [hd] at h
      | ok dn =>
          simp only [hd] at h
          cases hm : make_date (2000 + yn) (monthLookup p.month) dn with
          | error e => simp [hm] at h
          | ok ex =>
              simp only [hm] at h
              injection h with h
              subst h
              exact ⟨rfl, rfl, rfl, rfl, rfl⟩

/-- The reconstructed expiry date only depends on the day, month and
year tokens. -/
lemma finishRow_expiry {p q : ParsedSym} {r s : SplitRow}
    (hr : finishRow p = Except.ok r) (hs : finishRow q = Except.ok s)
    (hday : p.day = q.day) (hmonth : p.month = q.month) (hyear : p.year = q.year) :
    r.expiry_date = s.expiry_date := by
  unfold finishRow at hr hs
  rw [← hyear, ← hmonth, ← hday] at hs
  cases hy : castInteger p.year with
  | error e => simp [hy] at hr
  | ok yn =>
      simp only [hy] at hr hs
      cases hd : castInteger p.day with
      | error e => simp [hd] at hr
      | ok dn =>
          simp only [hd] at hr hs
          cases hm : make_date (2000 + yn) (monthLookup p.month) dn with
          | error e => simp [hm] at hr
          | ok ex =>
              simp only [hm] at hr hs
              injection hr with hr
              injection hs with hs
              subst hr
              subst hs
              rfl

/-- Distinct projected tuples that pass through `finishRow` give split
rows that differ on symbol or on trade date. -/
lemma splits_pairwise :
    ∀ {ps : List ParsedSym} {rs : List SplitRow},
      List.Forall₂ (fun p r => finishRow p = Except.ok r) ps rs →
      ps.Pairwise (fun a b => a ≠ b) →
      (∀ p ∈ ps, parsedWF p) →
      rs.Pairwise (fun a b => a.symbol ≠ b.symbol ∨ a.date ≠ b.date) := by
  intro ps rs h
  induction h with
  | nil =>
      intro _ _
      exact List.Pairwise.nil
  | cons hpr htail ih =>
      rename_i p r ps2 rs2
      intro hpw hwf
      rw [List.pairwise_cons] at hpw
      obtain ⟨hne, hpw2⟩ := hpw
      refine List.Pairwise.cons ?_ (ih hpw2 (fun x hx => hwf x (List.mem_cons_of_mem _ hx)))
      intro b hb
      obtain ⟨q, hq, hqb⟩ := forall₂_mem_right htail b hb
      by_contra hcon
      push_neg at hcon
      obtain ⟨hsym, hdate⟩ := hcon
      obtain ⟨hr1, hr2, _, _, _⟩ := finishRow_shape hpr
      obtain ⟨hb1, hb2, _, _, _⟩ := finishRow_shape hqb
      have hpq_sym : p.symbol = q.symbol := by rw [← hr1, ← hb1]; exact hsym
      have hpq_date : p.date = q.date := by rw [← hr2, ← hb2]; exact hdate
      obtain ⟨e1, e2, e3, e4, e5, e6⟩ :=
        same_symbol_fields (hwf p (List.mem_cons_self _ _))
          (hwf q (List.mem_cons_of_mem _ hq)) hpq_sym
      exact hne q hq (parsedSym_eq hpq_sym e1 e2 e3 e4 e5 e6 hpq_date)

/-- C2 counterexample: the same parseable symbol observed on two trade
dates yields two distinct SymbolSplit rows with equal symbol fields —
`SELECT DISTINCT` deduplicates the whole projected tuple, trade date
included, so symbol is not a unique key of the relation. -/
theorem C2_claim_counterexample :
    create_split_data [c2optA, c2optB] = Except.ok [c2rowA, c2rowB] ∧
    c2rowA.symbol = c2rowB.symbol ∧ c2rowA ≠ c2rowB := by
  refine ⟨rfl, rfl, ?_⟩
  decide

/-- C2 amended: the decomposer yields at most one row per distinct
(symbol, trade date) pair — any two rows differ on symbol or date —
and parsing is deterministic: rows sharing a symbol carry identical
instrument, expiry, strike and type. -/
theorem C2_split_key : ∀ (options : List OptionRow) (splits : List SplitRow),
    create_split_data options = Except.ok splits →
    splits.Pairwise (fun a b => a.symbol ≠ b.symbol ∨ a.date ≠ b.date) ∧
    (∀ a ∈ splits, ∀ b ∈ splits, a.symbol = b.symbol →
      a.instrument = b.instrument ∧ a.expiry_date = b.expiry_date ∧
      a.strike_price = b.strike_price ∧ a.option_type = b.option_type) := by
  intro options splits h
  unfold create_split_data at h
  cases hp : mapExcept parseCandidate
      (options.filter (fun o => likeNifty ("NIFTY".data) o.symbol)) with
  | error e => simp [hp] at h
  | ok projected =>
      simp only [hp] at h
      have hwf : ∀ p ∈ projected.dedup, parsedWF p := by
        intro p hpd
        obtain ⟨o2, _, ho2⟩ :=
          forall₂_mem_right (mapExcept_ok_forall₂ hp) p (List.mem_dedup.mp hpd)
        exact parseCandidate_wf ho2
      have hnd : projected.dedup.Pairwise (fun a b => a ≠ b) := List.nodup_dedup projected
      have hf2 := mapExcept_ok_forall₂ h
      constructor
      · exact splits_pairwise hf2 hnd hwf
      · intro a ha b hb hab
        obtain ⟨pa, hpa, hfa⟩ := forall₂_mem_right hf2 a ha
        obtain ⟨pb, hpb, hfb⟩ := forall₂_mem_right hf2 b hb
        obtain ⟨sa1, _, sa3, sa4, sa5⟩ := finishRow_shape hfa
        obtain ⟨sb1, _, sb3, sb4, sb5⟩ := finishRow_shape hfb
        have hsym : pa.symbol = pb.symbol := by rw [← sa1, ← sb1]; exact hab
        obtain ⟨e1, e2, e3, e4, e5, e6⟩ :=
          same_symbol_fields (hwf pa hpa) (hwf pb hpb) hsym
        refine ⟨?_, ?_, ?_, ?_⟩
        · rw [sa3, sb3, e1]
        · exact finishRow_expiry hfa hfb e2 e3 e4
        · rw [sa4, sb4, e5]
        · rw [sa5, sb5, e6]

/-- C2 witness: the amended statement at the concrete two-date input. -/
theorem C2_split_key_witness :
    [c2rowA, c2rowB].Pairwise (fun a b => a.symbol ≠ b.symbol ∨ a.date ≠ b.date) ∧
    (c2rowA.instrument = c2rowB.instrument ∧ c2rowA.expiry_date = c2rowB.expiry_date ∧
     c2rowA.strike_price = c2rowB.strike_price ∧ c2rowA.option_type = c2rowB.option_type) :=
  ⟨(C2_split_key [c2optA, c2optB] [c2rowA, c2rowB] rfl).1,
   (C2_split_key [c2optA, c2optB] [c2rowA, c2rowB] rfl).2
     c2rowA (by decide) c2rowB (by decide) rfl⟩

/-- C3: a NIFTY-prefixed candidate symbol that fails the grammar makes
the whole split INSERT raise a conversion error — `regexp_extract`
yields the empty string on a failed match, and `CAST('' AS INTEGER)`
raises — so `create_split_data` catches the exception and returns
False, failing the file, instead of the designed count-and-sample
path (which the query's dead `IS NOT NULL` filters were meant to feed). -/
theorem C3_unparseable_candidate_raises :
    create_split_data [niftyBadRow] =
      Except.error ("Could not convert string to INT32".data) := by
  rfl
